import Mathlib

/-!
Verification of the schannel (secure-channel) establishment engine of
source4/librpc/rpc/dcerpc_schannel.c.

The handshake logic is embedded shallowly: every network-event handler
(`continue_*` function) becomes a pure Lean function from the handler's
state and the received response to an outcome plus an updated state, and
the retry loop becomes a recursive driver over a list of peer responses.
Machine integers (uint32_t negotiate-flag words) are modelled as `Nat`
with explicit 32-bit masking where the C code complements bits.
-/

namespace Schannel

/-- 32-bit all-ones mask: negotiate-flag words are uint32_t. -/
def mask32 : Nat := 4294967295

/-- `x & ~b` on uint32 values: clear the bits of `b` in `x`
(and truncate to 32 bits, as the C assignment to uint32_t does). -/
def clearFlag (x b : Nat) : Nat := x &&& (mask32 ^^^ b)

/-- Modelled from the spec: the named capability bits of the
NegotiationFlags bitset ("supports AES", "supports strong keys",
"supports RC4", "authenticated RPC required", "RODC pass-through", ...).
The numeric values come from the repository's netlogon IDL
(librpc/idl/netlogon.idl, which is not under src/); they are the
standard MS-NRPC negotiate-flag values used by the schannel code. -/
def NETLOGON_NEG_ARCFOUR : Nat := 0x00000004

/-- Strong-keys capability bit (see `NETLOGON_NEG_ARCFOUR`). -/
def NETLOGON_NEG_STRONG_KEYS : Nat := 0x00004000

/-- Password-set2 capability bit (see `NETLOGON_NEG_ARCFOUR`). -/
def NETLOGON_NEG_PASSWORD_SET2 : Nat := 0x00020000

/-- RODC pass-through channel-type bit (see `NETLOGON_NEG_ARCFOUR`). -/
def NETLOGON_NEG_RODC_PASSTHROUGH : Nat := 0x00200000

/-- AES capability bit (see `NETLOGON_NEG_ARCFOUR`). -/
def NETLOGON_NEG_SUPPORTS_AES : Nat := 0x01000000

/-- Authenticated-RPC bit (see `NETLOGON_NEG_ARCFOUR`). -/
def NETLOGON_NEG_AUTHENTICATED_RPC : Nat := 0x40000000

/-- Modelled from the spec: the legacy baseline candidate capability set
`NETLOGON_NEG_AUTH2_FLAGS` of the repository's netlogon IDL (not under
src/): the NT4-era bits 0x1..0x100 plus ARCFOUR plus AUTHENTICATED_RPC. -/
def NETLOGON_NEG_AUTH2_FLAGS : Nat := 0x400001FF

/-- Modelled from the spec: the ADS baseline candidate capability set
`NETLOGON_NEG_AUTH2_ADS_FLAGS` of the repository's netlogon IDL (not
under src/): all of bits 0x1..0x40000 (including ARCFOUR, STRONG_KEYS
and PASSWORD_SET2) plus AUTHENTICATED_RPC. -/
def NETLOGON_NEG_AUTH2_ADS_FLAGS : Nat := 0x4007FFFF

/-- The NTSTATUS codes the schannel code distinguishes.  `other n`
stands for any status code different from all the named ones
(and different from success). -/
inductive NtStatus where
  | ok
  | accessDenied
  | downgradeDetected
  | notImplemented
  | internalError
  | rpcProcnumOutOfRange
  | rpcBadStubData
  | rpcEnumValueOutOfRange
  | other (n : Nat)
deriving DecidableEq, Repr

/-- The WERROR codes the control-probe path distinguishes. -/
inductive WError where
  | ok
  | notSupported
  | wother (n : Nat)
deriving DecidableEq, Repr

/-- Connection flags and loadparm policy switches that
`dcerpc_schannel_key_send` reads (lines 395-445). -/
structure PolicyInput where
  flags128 : Bool
  flagsAES : Bool
  flagsAuto : Bool
  lpRejectMd5Servers : Bool
  lpRequireStrongKey : Bool
  weakCryptoDisallowed : Bool
  isRodc : Bool
deriving DecidableEq, Repr

/-- The negotiation state `dcerpc_schannel_key_send` computes before the
first challenge is sent. -/
structure PolicyOutput where
  requested_negotiate_flags : Nat
  required_negotiate_flags : Nat
  local_negotiate_flags : Nat
  dcerpc_schannel_auto : Bool
deriving DecidableEq, Repr

/-- The flag computation of `dcerpc_schannel_key_send`
(dcerpc_schannel.c lines 395-445), step for step: baseline selection by
connection flag, derivation of `reject_md5_servers`/`require_strong_key`,
accumulation of `required_negotiate_flags`, `local |= required`, the AES
supersession that strips ARCFOUR/STRONG_KEYS from `required`, the RODC
pass-through bit, and finally `requested := local`. -/
def dcerpc_schannel_key_send (inp : PolicyInput) : PolicyOutput :=
  let localFlags := NETLOGON_NEG_AUTH2_FLAGS
  let required := NETLOGON_NEG_AUTHENTICATED_RPC
  let auto := false
  let rejectMd5 := false
  let requireStrong := false
  let (localFlags, requireStrong) :=
    if inp.flags128 then (NETLOGON_NEG_AUTH2_ADS_FLAGS, true)
    else (localFlags, requireStrong)
  let (localFlags, rejectMd5) :=
    if inp.flagsAES then (NETLOGON_NEG_AUTH2_ADS_FLAGS, true)
    else (localFlags, rejectMd5)
  let (localFlags, auto, rejectMd5, requireStrong) :=
    if inp.flagsAuto then
      (NETLOGON_NEG_AUTH2_ADS_FLAGS ||| NETLOGON_NEG_SUPPORTS_AES, true,
       inp.lpRejectMd5Servers, inp.lpRequireStrongKey)
    else (localFlags, auto, rejectMd5, requireStrong)
  let rejectMd5 := if inp.weakCryptoDisallowed then true else rejectMd5
  let requireStrong := if rejectMd5 then true else requireStrong
  let required :=
    if requireStrong then
      required ||| NETLOGON_NEG_ARCFOUR ||| NETLOGON_NEG_STRONG_KEYS
    else required
  let required :=
    if rejectMd5 then
      required ||| NETLOGON_NEG_PASSWORD_SET2 ||| NETLOGON_NEG_SUPPORTS_AES
    else required
  let localFlags := localFlags ||| required
  let required :=
    if required &&& NETLOGON_NEG_SUPPORTS_AES ≠ 0 then
      clearFlag (clearFlag required NETLOGON_NEG_ARCFOUR) NETLOGON_NEG_STRONG_KEYS
    else required
  let localFlags :=
    if inp.isRodc then localFlags ||| NETLOGON_NEG_RODC_PASSTHROUGH
    else localFlags
  { requested_negotiate_flags := localFlags
    required_negotiate_flags := required
    local_negotiate_flags := localFlags
    dcerpc_schannel_auto := auto }

/-- The effective `reject_md5_servers` boolean of
`dcerpc_schannel_key_send` (lines 399-417). -/
def rejectMd5Eff (inp : PolicyInput) : Bool :=
  inp.weakCryptoDisallowed ||
    (if inp.flagsAuto then inp.lpRejectMd5Servers else inp.flagsAES)

/-- The effective `require_strong_key` boolean of
`dcerpc_schannel_key_send` (lines 399-421). -/
def requireStrongKeyEff (inp : PolicyInput) : Bool :=
  rejectMd5Eff inp ||
    (if inp.flagsAuto then inp.lpRequireStrongKey else inp.flags128)

/-- The candidate capability bits of the channel class: the baseline
`local_negotiate_flags` chosen by lines 395-413 before any required
bits are merged in. -/
def candidateFlags (inp : PolicyInput) : Nat :=
  if inp.flagsAuto then NETLOGON_NEG_AUTH2_ADS_FLAGS ||| NETLOGON_NEG_SUPPORTS_AES
  else if inp.flagsAES || inp.flags128 then NETLOGON_NEG_AUTH2_ADS_FLAGS
  else NETLOGON_NEG_AUTH2_FLAGS

/-- The `required_negotiate_flags` value of lines 423-431, before the
AES supersession of lines 435-438 strips ARCFOUR/STRONG_KEYS. -/
def requiredPreSupersession (inp : PolicyInput) : Nat :=
  let required := NETLOGON_NEG_AUTHENTICATED_RPC
  let required :=
    if requireStrongKeyEff inp then
      required ||| NETLOGON_NEG_ARCFOUR ||| NETLOGON_NEG_STRONG_KEYS
    else required
  if rejectMd5Eff inp then
    required ||| NETLOGON_NEG_PASSWORD_SET2 ||| NETLOGON_NEG_SUPPORTS_AES
  else required

/-- The requested-flags formula as the specification words it: the
union of the (final) required flags, the candidate capability bits of
the channel class, and the channel-type bit. -/
def requestedSpecFormula (inp : PolicyInput) : Nat :=
  (dcerpc_schannel_key_send inp).required_negotiate_flags ||| candidateFlags inp |||
    (if inp.isRodc then NETLOGON_NEG_RODC_PASSTHROUGH else 0)

/-- The downgrade-detection check run after each authenticate attempt
(`continue_srv_auth2`, dcerpc_schannel.c lines 247-268): if both the
remote (negotiated) and local flag words advertise AES, the ARCFOUR and
STRONG_KEYS bits are cleared from the required word; the check then
fires iff the (possibly reduced) required word is not covered by the
remote word. -/
def schannelDowngradeCheck (required remote localMax : Nat) : Bool :=
  let rqf :=
    if remote &&& NETLOGON_NEG_SUPPORTS_AES ≠ 0 ∧
       localMax &&& NETLOGON_NEG_SUPPORTS_AES ≠ 0 then
      clearFlag (clearFlag required NETLOGON_NEG_ARCFOUR) NETLOGON_NEG_STRONG_KEYS
    else required
  (rqf &&& remote) ≠ rqf

/-- The downgrade condition as the specification words it: drop the RC4
and strong-keys bits from `required` when both sides advertise AES, then
fail iff `required & negotiated != required`. -/
def downgradeDetectedSpec (required negotiated localMax : Nat) : Bool :=
  let req :=
    if negotiated &&& NETLOGON_NEG_SUPPORTS_AES ≠ 0 ∧
       localMax &&& NETLOGON_NEG_SUPPORTS_AES ≠ 0 then
      required &&& (mask32 ^^^ (NETLOGON_NEG_ARCFOUR ||| NETLOGON_NEG_STRONG_KEYS))
    else required
  (req &&& negotiated) ≠ req

/-- The mutable fields of `struct schannel_key_state` that
`continue_srv_auth2` reads and writes: the three negotiate-flag words,
the one-shot automatic-downgrade permission, and the client challenge
(`credentials1`) most recently generated for the pending attempt. -/
structure KeyState where
  required_negotiate_flags : Nat
  requested_negotiate_flags : Nat
  local_negotiate_flags : Nat
  dcerpc_schannel_auto : Bool
  challenge : Nat
deriving DecidableEq, Repr

/-- What the peer's ServerAuthenticate2 exchange delivered back to
`continue_srv_auth2`: the RPC-layer receive status, the application
result (`s->a.out.result`), the negotiate-flag word the server returned
(`s->remote_negotiate_flags`), and whether the returned credentials pass
`netlogon_creds_client_verify` (the verify itself is an external
CryptoProvider operation, so its outcome is carried as a field). -/
structure Auth2Response where
  rpcStatus : NtStatus
  result : NtStatus
  remoteFlags : Nat
  credOk : Bool
deriving DecidableEq, Repr

/-- Outcome of one run of `continue_srv_auth2`:
fail the composite, retry the challenge with a narrowed state, or
finish with the final stored negotiated-flag word. -/
inductive Auth2Out where
  | fail (e : NtStatus)
  | retry (st : KeyState)
  | done (negotiated : Nat)
deriving DecidableEq, Repr

/-- The ACCESS_DENIED block of `continue_srv_auth2` (dcerpc_schannel.c
lines 274-335): cancel the automatic retry when the peer's flags equal
the offered ones; surface the denial when no retry is permitted; consume
the one-shot permission; surface the denial when the peer already
advertises the best key class the local side offered (AES, else strong
keys); otherwise narrow `local_negotiate_flags` to the intersection,
regenerate the client challenge (`fresh`) and resend the challenge
request. -/
def srv_auth2_access_denied (s : KeyState) (rf : Nat) (fresh : Nat) : Auth2Out :=
  let lf := s.local_negotiate_flags
  let auto := if lf &&& rf = lf then false else s.dcerpc_schannel_auto
  if auto = false then .fail .accessDenied
  else if lf &&& NETLOGON_NEG_SUPPORTS_AES ≠ 0 ∧
          rf &&& NETLOGON_NEG_SUPPORTS_AES ≠ 0 then .fail .accessDenied
  else if lf &&& NETLOGON_NEG_SUPPORTS_AES = 0 ∧
          lf &&& NETLOGON_NEG_STRONG_KEYS ≠ 0 ∧
          rf &&& NETLOGON_NEG_STRONG_KEYS ≠ 0 then .fail .accessDenied
  else .retry { s with dcerpc_schannel_auto := false,
                       local_negotiate_flags := lf &&& rf,
                       challenge := fresh }

/-- `continue_srv_auth2` (dcerpc_schannel.c lines 221-365) as a pure
step function.  `fresh` is the random buffer drawn for `credentials1`
in the retry branch (line 324).  Branches, in source order: receive
failure; a result other than OK/ACCESS_DENIED; the downgrade check of
lines 247-268; the ACCESS_DENIED retry logic of lines 274-335; the
credential verify of lines 338-345; the final flag adjustment and
second-downgrade check of lines 347-362. -/
def continue_srv_auth2 (s : KeyState) (r : Auth2Response) (fresh : Nat) : Auth2Out :=
  if r.rpcStatus ≠ .ok then .fail r.rpcStatus
  else if r.result ≠ .accessDenied ∧ r.result ≠ .ok then .fail r.result
  else if schannelDowngradeCheck s.required_negotiate_flags r.remoteFlags
            s.local_negotiate_flags then .fail .downgradeDetected
  else if r.result = .accessDenied then
    srv_auth2_access_denied s r.remoteFlags fresh
  else if r.credOk = false then .fail .accessDenied
  else if s.requested_negotiate_flags = s.local_negotiate_flags then
    .done (s.local_negotiate_flags &&& r.remoteFlags)
  else if s.local_negotiate_flags ≠ r.remoteFlags then .fail .downgradeDetected
  else .done s.local_negotiate_flags

/-- Result of driving the challenge/authenticate loop over a list of
peer responses, together with the trace of client challenges actually
sent (one per attempt). -/
inductive KeyRunResult where
  | established (negotiated : Nat) (sentChallenges : List Nat)
  | failed (e : NtStatus) (sentChallenges : List Nat)
  | pending (sentChallenges : List Nat)
deriving DecidableEq, Repr

/-- The challenge trace of a run. -/
def KeyRunResult.sent : KeyRunResult → List Nat
  | .established _ cs => cs
  | .failed _ cs => cs
  | .pending cs => cs

/-- Record one more sent challenge in front of a run result's trace. -/
def KeyRunResult.consChallenge (c : Nat) : KeyRunResult → KeyRunResult
  | .established n cs => .established n (c :: cs)
  | .failed e cs => .failed e (c :: cs)
  | .pending cs => .pending (c :: cs)

/-- Drive the attempt loop: attempt `i` (numbering from `k`) sends the
challenge stored in the state (drawn by `generate_random_buffer`), and
a retry draws `rng (k+1)` as its fresh challenge, exactly as
`continue_srv_auth2` regenerates `credentials1` before resending the
`ServerReqChallenge` request. -/
def runAuthAttempts (rng : Nat → Nat) (k : Nat) (s : KeyState) :
    List Auth2Response → KeyRunResult
  | [] => .pending []
  | r :: rs =>
    match continue_srv_auth2 s r (rng (k + 1)) with
    | .fail e => .failed e [s.challenge]
    | .done n => .established n [s.challenge]
    | .retry s' =>
      (runAuthAttempts rng (k + 1) s' rs).consChallenge s.challenge

/-- The initial key-exchange state for a policy input: the flag words of
`dcerpc_schannel_key_send` plus the first client challenge, freshly
drawn in `continue_bind_auth_none` (line 146) as `rng 0`. -/
def initialKeyState (rng : Nat → Nat) (inp : PolicyInput) : KeyState :=
  let pol := dcerpc_schannel_key_send inp
  { required_negotiate_flags := pol.required_negotiate_flags
    requested_negotiate_flags := pol.requested_negotiate_flags
    local_negotiate_flags := pol.local_negotiate_flags
    dcerpc_schannel_auto := pol.dcerpc_schannel_auto
    challenge := rng 0 }

/-- A full key-establishment run: policy computation, first challenge
draw, then the attempt loop over the peer's responses. -/
def runSchannelKey (rng : Nat → Nat) (inp : PolicyInput)
    (rs : List Auth2Response) : KeyRunResult :=
  runAuthAttempts rng 0 (initialKeyState rng inp) rs

/-- The fields of `struct netlogon_creds_CredentialState` the capability
verification reads and writes: the negotiated flag word, the rolling
credential, and the sequence counter. -/
structure CredentialState where
  negotiate_flags : Nat
  seed : Nat
  sequence : Nat
deriving DecidableEq, Repr

/-- Modelled from the spec: `netlogon_creds_client_authenticator`
(libcli/auth, not under src/) advances the sequence counter and derives
the next rolling credential (a MAC over a timestamp-derived value) from
the session state; it never touches the negotiated flag word.  The MAC
itself is an external CryptoProvider operation, abstracted here as a
deterministic step of the seed. -/
def netlogon_creds_client_authenticator (cs : CredentialState) :
    CredentialState × Nat :=
  ({ cs with sequence := cs.sequence + 1, seed := cs.seed + 1 }, cs.seed + 1)

/-- Modelled from the spec: `netlogon_creds_client_verify` (libcli/auth,
not under src/) checks the peer's return authenticator against the value
derived from the local (saved, already advanced) credential-chain state:
`verify_credential(key, expected, received) -> bool`. -/
def netlogon_creds_client_verify (cs : CredentialState) (received : Nat) : Bool :=
  received == cs.seed

/-- The mutable fields of `struct auth_schannel_state` the capability
verification uses: the live credential chain (`creds_state`), the saved
copy the authenticator is computed on (`save_creds_state`), and the
requested flags recorded at the authenticate step. -/
structure AuthSchannelState where
  creds_state : CredentialState
  save_creds_state : CredentialState
  requested_negotiate_flags : Nat
deriving DecidableEq, Repr

/-- A LogonGetCapabilities response as its handler sees it: RPC-layer
receive status, the return authenticator's credential, the application
result, and the capability word (`server_capabilities` for a level-1
query, `requested_flags` for a level-2 query). -/
structure CapResponse where
  rpcStatus : NtStatus
  returnCred : Nat
  result : NtStatus
  capabilities : Nat
deriving DecidableEq, Repr

/-- What a capability-verification handler does next: fail the
composite, finish, send the level-2 query, or fall back to the neutral
LogonControl probe. -/
inductive CapOutcome where
  | fail (e : NtStatus)
  | doneOk
  | sendClientCaps
  | sendProbe
deriving DecidableEq, Repr

/-- The netlogon branch of `continue_bind_auth` (lines 563-601): save a
copy of the live credential chain, compute the next authenticator on the
copy, and send the level-1 LogonGetCapabilities query.  Returns the
state as it stands while the query is in flight. -/
def continue_bind_auth (s : AuthSchannelState) : AuthSchannelState :=
  { s with save_creds_state := (netlogon_creds_client_authenticator s.creds_state).1 }

/-- `continue_get_negotiated_capabilities` (lines 612-722) as a pure
function of the state and the level-1 response.  Branches, in source
order: the PROCNUM_OUT_OF_RANGE legacy detection (probe fallback only
when neither AES nor strong keys were negotiated); any other receive
failure; the NOT_IMPLEMENTED result (fatal with AES, legacy success
without); credential verification (only on success is the live chain
overwritten with the saved advanced copy); a failing application result;
the bit-for-bit comparison of the negotiated flags against the reported
server capabilities; the requested-AES cross-check; and finally the
preparation of the level-2 query (a fresh authenticator on a fresh saved
copy). -/
def continue_get_negotiated_capabilities (s : AuthSchannelState)
    (r : CapResponse) : CapOutcome × AuthSchannelState :=
  if r.rpcStatus = .rpcProcnumOutOfRange then
    if s.creds_state.negotiate_flags &&& NETLOGON_NEG_SUPPORTS_AES ≠ 0 then
      (.fail .downgradeDetected, s)
    else if s.creds_state.negotiate_flags &&& NETLOGON_NEG_STRONG_KEYS ≠ 0 then
      (.fail .downgradeDetected, s)
    else (.sendProbe, s)
  else if r.rpcStatus ≠ .ok then (.fail r.rpcStatus, s)
  else if r.result = .notImplemented then
    if s.creds_state.negotiate_flags &&& NETLOGON_NEG_SUPPORTS_AES ≠ 0 then
      (.fail .downgradeDetected, s)
    else (.doneOk, s)
  else if netlogon_creds_client_verify s.save_creds_state r.returnCred = false then
    (.fail .accessDenied, s)
  else
    let s := { s with creds_state := s.save_creds_state }
    if r.result ≠ .ok then (.fail r.result, s)
    else if s.creds_state.negotiate_flags ≠ r.capabilities then
      (.fail .downgradeDetected, s)
    else if s.requested_negotiate_flags &&& NETLOGON_NEG_SUPPORTS_AES ≠ 0 ∧
            s.creds_state.negotiate_flags &&& NETLOGON_NEG_SUPPORTS_AES = 0 then
      (.fail .downgradeDetected, s)
    else
      (.sendClientCaps,
       { s with save_creds_state :=
           (netlogon_creds_client_authenticator s.creds_state).1 })

/-- `continue_get_client_capabilities` (lines 724-801) as a pure function
of the state and the level-2 response.  Branches, in source order: the
BAD_STUB_DATA quirk remap to ENUM_VALUE_OUT_OF_RANGE; the
ENUM_VALUE_OUT_OF_RANGE probe fallback; any other receive failure;
credential verification; a failing application result; the comparison of
the echoed `requested_flags` against what was actually sent; and only
then the commit of the saved advanced credential chain. -/
def continue_get_client_capabilities (s : AuthSchannelState)
    (r : CapResponse) : CapOutcome × AuthSchannelState :=
  let st := if r.rpcStatus = .rpcBadStubData then .rpcEnumValueOutOfRange
            else r.rpcStatus
  if st = .rpcEnumValueOutOfRange then (.sendProbe, s)
  else if st ≠ .ok then (.fail st, s)
  else if netlogon_creds_client_verify s.save_creds_state r.returnCred = false then
    (.fail .accessDenied, s)
  else if r.result ≠ .ok then (.fail r.result, s)
  else if s.requested_negotiate_flags ≠ r.capabilities then
    (.fail .downgradeDetected, s)
  else (.doneOk, { s with creds_state := s.save_creds_state })

/-- `continue_logon_control_done` (lines 824-849): the handshake ends in
`Done` iff the neutral LogonControl probe call itself succeeded and its
WERROR is exactly WERR_NOT_SUPPORTED; any other outcome is
NT_STATUS_DOWNGRADE_DETECTED.  The credential-chain state is untouched
either way. -/
def continue_logon_control_done (s : AuthSchannelState)
    (probeStatus : NtStatus) (werr : WError) : CapOutcome × AuthSchannelState :=
  if probeStatus ≠ .ok then (.fail .downgradeDetected, s)
  else if werr ≠ .notSupported then (.fail .downgradeDetected, s)
  else (.doneOk, s)

/-! ## Helper lemmas -/

/-- Clearing ARCFOUR and then STRONG_KEYS is one mask with both bits
removed. -/
lemma clearFlag_arcfour_strong (x : Nat) :
    clearFlag (clearFlag x NETLOGON_NEG_ARCFOUR) NETLOGON_NEG_STRONG_KEYS =
      x &&& (mask32 ^^^ (NETLOGON_NEG_ARCFOUR ||| NETLOGON_NEG_STRONG_KEYS)) := by
  show x &&& _ &&& _ = _
  rw [Nat.land_assoc]
  have hm : (mask32 ^^^ NETLOGON_NEG_ARCFOUR) &&& (mask32 ^^^ NETLOGON_NEG_STRONG_KEYS) =
      mask32 ^^^ (NETLOGON_NEG_ARCFOUR ||| NETLOGON_NEG_STRONG_KEYS) := by decide
  rw [hm]

/-- The source's double-clear downgrade check coincides with the
specification's single-mask description of it. -/
lemma schannelDowngradeCheck_eq_spec (required negotiated localMax : Nat) :
    schannelDowngradeCheck required negotiated localMax =
      downgradeDetectedSpec required negotiated localMax := by
  unfold schannelDowngradeCheck downgradeDetectedSpec
  rw [clearFlag_arcfour_strong]

/-- A required word consisting solely of RC4/strong-key bits vanishes
under the AES supersession mask. -/
lemma rc4_strong_only_cleared (required : Nat)
    (h : required &&& (NETLOGON_NEG_ARCFOUR ||| NETLOGON_NEG_STRONG_KEYS) = required) :
    clearFlag (clearFlag required NETLOGON_NEG_ARCFOUR) NETLOGON_NEG_STRONG_KEYS = 0 := by
  rw [clearFlag_arcfour_strong]
  calc required &&& (mask32 ^^^ (NETLOGON_NEG_ARCFOUR ||| NETLOGON_NEG_STRONG_KEYS))
      = required &&& (NETLOGON_NEG_ARCFOUR ||| NETLOGON_NEG_STRONG_KEYS) &&&
          (mask32 ^^^ (NETLOGON_NEG_ARCFOUR ||| NETLOGON_NEG_STRONG_KEYS)) := by rw [h]
    _ = required &&& ((NETLOGON_NEG_ARCFOUR ||| NETLOGON_NEG_STRONG_KEYS) &&&
          (mask32 ^^^ (NETLOGON_NEG_ARCFOUR ||| NETLOGON_NEG_STRONG_KEYS))) := by
        rw [Nat.land_assoc]
    _ = required &&& 0 := by
        have hz : (NETLOGON_NEG_ARCFOUR ||| NETLOGON_NEG_STRONG_KEYS) &&&
            (mask32 ^^^ (NETLOGON_NEG_ARCFOUR ||| NETLOGON_NEG_STRONG_KEYS)) = 0 := by decide
        rw [hz]
    _ = 0 := Nat.and_zero required

/-- Inversion of the ACCESS_DENIED block: a retry is produced only with
the one-shot permission set and genuinely narrowed flags, and the retry
state is the narrowed state with the permission consumed and the fresh
challenge installed. -/
lemma access_denied_retry_inversion (s : KeyState) (rf f : Nat) (s' : KeyState)
    (h : srv_auth2_access_denied s rf f = .retry s') :
    s.dcerpc_schannel_auto = true ∧
    s.local_negotiate_flags &&& rf ≠ s.local_negotiate_flags ∧
    s' = { s with dcerpc_schannel_auto := false,
                  local_negotiate_flags := s.local_negotiate_flags &&& rf,
                  challenge := f } := by
  by_cases hl : s.local_negotiate_flags &&& rf = s.local_negotiate_flags
  · have hv : srv_auth2_access_denied s rf f = .fail .accessDenied := by
      unfold srv_auth2_access_denied
      simp [hl]
    rw [hv] at h
    cases h
  · cases ha : s.dcerpc_schannel_auto with
    | false =>
      have hv : srv_auth2_access_denied s rf f = .fail .accessDenied := by
        unfold srv_auth2_access_denied
        simp [hl, ha]
      rw [hv] at h
      cases h
    | true =>
      by_cases c1 : s.local_negotiate_flags &&& NETLOGON_NEG_SUPPORTS_AES ≠ 0 ∧
          rf &&& NETLOGON_NEG_SUPPORTS_AES ≠ 0
      · have hv : srv_auth2_access_denied s rf f = .fail .accessDenied := by
          unfold srv_auth2_access_denied
          simp [hl, ha, c1]
        rw [hv] at h
        cases h
      · by_cases c2 : s.local_negotiate_flags &&& NETLOGON_NEG_SUPPORTS_AES = 0 ∧
            s.local_negotiate_flags &&& NETLOGON_NEG_STRONG_KEYS ≠ 0 ∧
            rf &&& NETLOGON_NEG_STRONG_KEYS ≠ 0
        · have hv : srv_auth2_access_denied s rf f = .fail .accessDenied := by
            unfold srv_auth2_access_denied
            simp [hl, ha, c1, c2]
          rw [hv] at h
          cases h
        · have hv : srv_auth2_access_denied s rf f =
              .retry { s with dcerpc_schannel_auto := false,
                              local_negotiate_flags := s.local_negotiate_flags &&& rf,
                              challenge := f } := by
            unfold srv_auth2_access_denied
            simp [hl, ha, c1, c2]
          rw [hv] at h
          cases h
          exact ⟨rfl, hl, rfl⟩

/-- Inversion of `continue_srv_auth2` for the retry outcome. -/
lemma srv_auth2_retry_inversion (s : KeyState) (r : Auth2Response) (f : Nat)
    (s' : KeyState) (h : continue_srv_auth2 s r f = .retry s') :
    r.rpcStatus = .ok ∧ r.result = .accessDenied ∧
    s.dcerpc_schannel_auto = true ∧
    s.local_negotiate_flags &&& r.remoteFlags ≠ s.local_negotiate_flags ∧
    s' = { s with dcerpc_schannel_auto := false,
                  local_negotiate_flags := s.local_negotiate_flags &&& r.remoteFlags,
                  challenge := f } := by
  by_cases h1 : r.rpcStatus = .ok
  · by_cases h2 : r.result = .accessDenied
    · by_cases h3 : schannelDowngradeCheck s.required_negotiate_flags r.remoteFlags
          s.local_negotiate_flags = true
      · have hv : continue_srv_auth2 s r f = .fail .downgradeDetected := by
          unfold continue_srv_auth2
          simp [h1, h2, h3]
        rw [hv] at h
        cases h
      · have hv : continue_srv_auth2 s r f = srv_auth2_access_denied s r.remoteFlags f := by
          unfold continue_srv_auth2
          simp [h1, h2, h3]
        rw [hv] at h
        exact ⟨h1, h2, access_denied_retry_inversion s r.remoteFlags f s' h⟩
    · exfalso
      by_cases h4 : r.result = .ok
      · by_cases h3 : schannelDowngradeCheck s.required_negotiate_flags r.remoteFlags
            s.local_negotiate_flags = true
        · have hv : continue_srv_auth2 s r f = .fail .downgradeDetected := by
            unfold continue_srv_auth2
            simp [h1, h2, h3, h4]
          rw [hv] at h
          cases h
        · cases hc : r.credOk with
          | false =>
            have hv : continue_srv_auth2 s r f = .fail .accessDenied := by
              unfold continue_srv_auth2
              simp [h1, h2, h3, h4, hc]
            rw [hv] at h
            cases h
          | true =>
            by_cases h5 : s.requested_negotiate_flags = s.local_negotiate_flags
            · have hv : continue_srv_auth2 s r f =
                  .done (s.local_negotiate_flags &&& r.remoteFlags) := by
                unfold continue_srv_auth2
                simp [h1, h2, h3, h4, hc, h5]
              rw [hv] at h
              cases h
            · by_cases h6 : s.local_negotiate_flags = r.remoteFlags
              · rw [h6] at h3 h5
                have hv : continue_srv_auth2 s r f = .done r.remoteFlags := by
                  unfold continue_srv_auth2
                  rw [h6]
                  simp [h1, h2, h3, h4, hc, h5]
                rw [hv] at h
                cases h
              · have hv : continue_srv_auth2 s r f = .fail .downgradeDetected := by
                  unfold continue_srv_auth2
                  simp [h1, h2, h3, h4, hc, h5, h6]
                rw [hv] at h
                cases h
      · have hv : continue_srv_auth2 s r f = .fail r.result := by
          unfold continue_srv_auth2
          simp [h1, h2, h4]
        rw [hv] at h
        cases h
  · exfalso
    have hv : continue_srv_auth2 s r f = .fail r.rpcStatus := by
      unfold continue_srv_auth2
      simp [h1]
    rw [hv] at h
    cases h

/-- With the one-shot retry permission cleared, `continue_srv_auth2`
never retries. -/
lemma srv_auth2_no_retry_of_auto_false (s : KeyState) (r : Auth2Response)
    (f : Nat) (h : s.dcerpc_schannel_auto = false) (s' : KeyState) :
    continue_srv_auth2 s r f ≠ .retry s' := by
  intro hr
  obtain ⟨-, -, hauto, -, -⟩ := srv_auth2_retry_inversion s r f s' hr
  rw [h] at hauto
  cases hauto

/-- The challenge trace of `consChallenge`. -/
lemma sent_consChallenge (c : Nat) (kr : KeyRunResult) :
    (kr.consChallenge c).sent = c :: kr.sent := by
  cases kr <;> rfl

/-- A run whose state has the retry permission cleared performs at most
one attempt. -/
lemma runAuthAttempts_length_of_auto_false (rng : Nat → Nat) (k : Nat)
    (s : KeyState) (rs : List Auth2Response) (h : s.dcerpc_schannel_auto = false) :
    (runAuthAttempts rng k s rs).sent.length ≤ 1 := by
  cases rs with
  | nil => simp [runAuthAttempts, KeyRunResult.sent]
  | cons r rs =>
    rcases hstep : continue_srv_auth2 s r (rng (k + 1)) with e | s' | n
    · simp [runAuthAttempts, hstep, KeyRunResult.sent]
    · exact absurd hstep (srv_auth2_no_retry_of_auto_false s r _ h s')
    · simp [runAuthAttempts, hstep, KeyRunResult.sent]

/-- Any run performs at most two attempts (at most one retry). -/
lemma runAuthAttempts_length_le_two (rng : Nat → Nat) (k : Nat)
    (s : KeyState) (rs : List Auth2Response) :
    (runAuthAttempts rng k s rs).sent.length ≤ 2 := by
  cases rs with
  | nil => simp [runAuthAttempts, KeyRunResult.sent]
  | cons r rs =>
    rcases hstep : continue_srv_auth2 s r (rng (k + 1)) with e | s' | n
    · simp [runAuthAttempts, hstep, KeyRunResult.sent]
    · have hauto : s'.dcerpc_schannel_auto = false := by
        obtain ⟨-, -, -, -, hs'⟩ := srv_auth2_retry_inversion s r _ s' hstep
        rw [hs']
      have htail := runAuthAttempts_length_of_auto_false rng (k + 1) s' rs hauto
      simp only [runAuthAttempts, hstep, sent_consChallenge, List.length_cons]
      omega
    · simp [runAuthAttempts, hstep, KeyRunResult.sent]

/-- The challenge sent in attempt `i` of a run starting at RNG index `k`
is the RNG draw at index `k + i`. -/
lemma runAuthAttempts_sent_getD (rng : Nat → Nat) :
    ∀ (rs : List Auth2Response) (k : Nat) (s : KeyState),
      s.challenge = rng k →
      ∀ i, i < (runAuthAttempts rng k s rs).sent.length →
        (runAuthAttempts rng k s rs).sent.getD i 0 = rng (k + i) := by
  intro rs
  induction rs with
  | nil =>
    intro k s _ i hi
    simp [runAuthAttempts, KeyRunResult.sent] at hi
  | cons r rs ih =>
    intro k s hch i hi
    rcases hstep : continue_srv_auth2 s r (rng (k + 1)) with e | s' | n
    · simp only [runAuthAttempts, hstep, KeyRunResult.sent, List.length_cons,
        List.length_nil] at hi ⊢
      have hz : i = 0 := by omega
      subst hz
      simpa using hch
    · have hs' : s'.challenge = rng (k + 1) := by
        obtain ⟨-, -, -, -, hse⟩ := srv_auth2_retry_inversion s r _ s' hstep
        rw [hse]
      simp only [runAuthAttempts, hstep, sent_consChallenge, List.length_cons] at hi ⊢
      cases i with
      | zero => simpa using hch
      | succ j =>
        rw [List.getD_cons_succ]
        rw [show k + (j + 1) = k + 1 + j from by omega]
        exact ih (k + 1) s' hs' j (by omega)
    · simp only [runAuthAttempts, hstep, KeyRunResult.sent, List.length_cons,
        List.length_nil] at hi ⊢
      have hz : i = 0 := by omega
      subst hz
      simpa using hch

/-- Case analysis of the level-1 handler's effect on the stored
credential chain: either it is left exactly as it was, or the call was
received, the authenticator verified, and the chain is the saved
advanced copy. -/
lemma l1_state_cases (s : AuthSchannelState) (r : CapResponse) :
    ((continue_get_negotiated_capabilities s r).2).creds_state = s.creds_state ∨
    (r.rpcStatus = .ok ∧
     netlogon_creds_client_verify s.save_creds_state r.returnCred = true ∧
     ((continue_get_negotiated_capabilities s r).2).creds_state =
       s.save_creds_state) := by
  by_cases h1 : r.rpcStatus = .rpcProcnumOutOfRange
  · left
    unfold continue_get_negotiated_capabilities
    simp only [h1, if_true, ite_true]
    split
    · rfl
    · split
      · rfl
      · rfl
  · by_cases h2 : r.rpcStatus = .ok
    · by_cases h3 : r.result = .notImplemented
      · left
        unfold continue_get_negotiated_capabilities
        simp [h1, h2, h3]
        split
        · rfl
        · rfl
      · cases hv : netlogon_creds_client_verify s.save_creds_state r.returnCred with
        | false =>
          left
          unfold continue_get_negotiated_capabilities
          simp [h1, h2, h3, hv]
        | true =>
          right
          refine ⟨h2, rfl, ?_⟩
          unfold continue_get_negotiated_capabilities
          simp [h1, h2, h3, hv]
          repeat' split
          all_goals rfl
    · left
      unfold continue_get_negotiated_capabilities
      simp [h1, h2]

/-- Case analysis of the level-2 handler's effect on the stored
credential chain, as for the level-1 handler. -/
lemma l2_state_cases (s : AuthSchannelState) (r : CapResponse) :
    ((continue_get_client_capabilities s r).2).creds_state = s.creds_state ∨
    (r.rpcStatus = .ok ∧
     netlogon_creds_client_verify s.save_creds_state r.returnCred = true ∧
     ((continue_get_client_capabilities s r).2).creds_state =
       s.save_creds_state) := by
  by_cases hb : r.rpcStatus = .rpcBadStubData
  · left
    unfold continue_get_client_capabilities
    simp [hb]
  · by_cases he : r.rpcStatus = .rpcEnumValueOutOfRange
    · left
      unfold continue_get_client_capabilities
      simp [hb, he]
    · by_cases ho : r.rpcStatus = .ok
      · cases hv : netlogon_creds_client_verify s.save_creds_state r.returnCred with
        | false =>
          left
          unfold continue_get_client_capabilities
          simp [hb, he, ho, hv]
        | true =>
          by_cases hres : r.result = .ok
          · by_cases hecho : s.requested_negotiate_flags = r.capabilities
            · right
              refine ⟨ho, rfl, ?_⟩
              unfold continue_get_client_capabilities
              simp [hb, he, ho, hv, hres, hecho]
            · left
              unfold continue_get_client_capabilities
              simp [hb, he, ho, hv, hres, hecho]
          · left
            unfold continue_get_client_capabilities
            simp [hb, he, ho, hv, hres]
      · left
        unfold continue_get_client_capabilities
        simp [hb, he, ho]

/-- The level-2 handler falls back to the neutral control probe exactly
for the BAD_STUB_DATA and ENUM_VALUE_OUT_OF_RANGE receive statuses. -/
lemma l2_probe_iff (s : AuthSchannelState) (r : CapResponse) :
    (continue_get_client_capabilities s r).1 = .sendProbe ↔
      (r.rpcStatus = .rpcBadStubData ∨ r.rpcStatus = .rpcEnumValueOutOfRange) := by
  constructor
  · intro h
    by_cases hb : r.rpcStatus = .rpcBadStubData
    · exact Or.inl hb
    · by_cases he : r.rpcStatus = .rpcEnumValueOutOfRange
      · exact Or.inr he
      · exfalso
        by_cases ho : r.rpcStatus = .ok
        · cases hv : netlogon_creds_client_verify s.save_creds_state r.returnCred with
          | false =>
            have hval : continue_get_client_capabilities s r = (.fail .accessDenied, s) := by
              unfold continue_get_client_capabilities
              simp [hb, he, ho, hv]
            rw [hval] at h
            cases h
          | true =>
            by_cases hres : r.result = .ok
            · by_cases hecho : s.requested_negotiate_flags = r.capabilities
              · have hval : continue_get_client_capabilities s r =
                    (.doneOk, { s with creds_state := s.save_creds_state }) := by
                  unfold continue_get_client_capabilities
                  simp [hb, he, ho, hv, hres, hecho]
                rw [hval] at h
                cases h
              · have hval : continue_get_client_capabilities s r =
                    (.fail .downgradeDetected, s) := by
                  unfold continue_get_client_capabilities
                  simp [hb, he, ho, hv, hres, hecho]
                rw [hval] at h
                cases h
            · have hval : continue_get_client_capabilities s r = (.fail r.result, s) := by
                unfold continue_get_client_capabilities
                simp [hb, he, ho, hv, hres]
              rw [hval] at h
              cases h
        · have hval : continue_get_client_capabilities s r = (.fail r.rpcStatus, s) := by
            unfold continue_get_client_capabilities
            simp [hb, he, ho]
          rw [hval] at h
          cases h
  · intro h
    rcases h with h | h <;>
      · unfold continue_get_client_capabilities
        simp [h]

/-- Inversion of the level-2 handler's success: `doneOk` is reached
only with a received call, a verified authenticator, an OK result and
the requested flags echoed back unchanged. -/
lemma l2_doneOk_inversion (s : AuthSchannelState) (r : CapResponse)
    (h : (continue_get_client_capabilities s r).1 = .doneOk) :
    r.rpcStatus = .ok ∧
    netlogon_creds_client_verify s.save_creds_state r.returnCred = true ∧
    r.result = .ok ∧ s.requested_negotiate_flags = r.capabilities := by
  by_cases hb : r.rpcStatus = .rpcBadStubData
  · exfalso
    have hval : continue_get_client_capabilities s r = (.sendProbe, s) := by
      unfold continue_get_client_capabilities
      simp [hb]
    rw [hval] at h
    cases h
  · by_cases he : r.rpcStatus = .rpcEnumValueOutOfRange
    · exfalso
      have hval : continue_get_client_capabilities s r = (.sendProbe, s) := by
        unfold continue_get_client_capabilities
        simp [hb, he]
      rw [hval] at h
      cases h
    · by_cases ho : r.rpcStatus = .ok
      · cases hv : netlogon_creds_client_verify s.save_creds_state r.returnCred with
        | false =>
          exfalso
          have hval : continue_get_client_capabilities s r = (.fail .accessDenied, s) := by
            unfold continue_get_client_capabilities
            simp [hb, he, ho, hv]
          rw [hval] at h
          cases h
        | true =>
          by_cases hres : r.result = .ok
          · by_cases hecho : s.requested_negotiate_flags = r.capabilities
            · exact ⟨ho, rfl, hres, hecho⟩
            · exfalso
              have hval : continue_get_client_capabilities s r =
                  (.fail .downgradeDetected, s) := by
                unfold continue_get_client_capabilities
                simp [hb, he, ho, hv, hres, hecho]
              rw [hval] at h
              cases h
          · exfalso
            have hval : continue_get_client_capabilities s r = (.fail r.result, s) := by
              unfold continue_get_client_capabilities
              simp [hb, he, ho, hv, hres]
            rw [hval] at h
            cases h
      · exfalso
        have hval : continue_get_client_capabilities s r = (.fail r.rpcStatus, s) := by
          unfold continue_get_client_capabilities
          simp [hb, he, ho]
        rw [hval] at h
        cases h

/-! ## Claim theorems -/

/-- C1: downgrade detection after each authenticate attempt.  If both
the negotiated (peer-returned) and local-maximum flag words contain the
AES bit, the RC4 and strong-keys bits are dropped from `required`
before the comparison, and detection fires iff
`required & negotiated != required` afterwards (the source check equals
this specification reading).  In particular, with AES on both sides a
`required` word holding only RC4/strong-key bits never triggers
detection, whatever `negotiated` contains; and whenever the check fires
on a received authenticate response the attempt fails with
`DowngradeDetected`. -/
theorem claim_C1_downgrade_detection :
    (∀ required negotiated localMax : Nat,
      schannelDowngradeCheck required negotiated localMax =
        downgradeDetectedSpec required negotiated localMax) ∧
    (∀ required negotiated localMax : Nat,
      negotiated &&& NETLOGON_NEG_SUPPORTS_AES ≠ 0 →
      localMax &&& NETLOGON_NEG_SUPPORTS_AES ≠ 0 →
      required &&& (NETLOGON_NEG_ARCFOUR ||| NETLOGON_NEG_STRONG_KEYS) = required →
      schannelDowngradeCheck required negotiated localMax = false) ∧
    (∀ (s : KeyState) (r : Auth2Response) (f : Nat),
      r.rpcStatus = .ok → (r.result = .ok ∨ r.result = .accessDenied) →
      schannelDowngradeCheck s.required_negotiate_flags r.remoteFlags
        s.local_negotiate_flags = true →
      continue_srv_auth2 s r f = .fail .downgradeDetected) := by
  refine ⟨schannelDowngradeCheck_eq_spec, ?_, ?_⟩
  · intro required negotiated localMax h1 h2 h3
    unfold schannelDowngradeCheck
    rw [if_pos (And.intro h1 h2), rc4_strong_only_cleared required h3]
    simp
  · intro s r f h1 h2 h3
    rcases h2 with h2 | h2 <;>
      · unfold continue_srv_auth2
        simp [h1, h2, h3]

/-- Witness for C1: a required word of only RC4/strong-keys passes the
check when both sides have AES, and a concrete failing check makes the
attempt fail with `DowngradeDetected`. -/
theorem claim_C1_downgrade_detection_witness :
    schannelDowngradeCheck 0x4004 0x1000000 0x1000000 = false ∧
    continue_srv_auth2
      { required_negotiate_flags := 0x41000000, requested_negotiate_flags := 0,
        local_negotiate_flags := 0, dcerpc_schannel_auto := false, challenge := 0 }
      { rpcStatus := .ok, result := .ok, remoteFlags := 0, credOk := true } 0 =
      .fail .downgradeDetected :=
  ⟨claim_C1_downgrade_detection.2.1 0x4004 0x1000000 0x1000000
      (by decide) (by decide) (by decide),
   claim_C1_downgrade_detection.2.2 _ _ 0 rfl (Or.inl rfl) (by decide)⟩

/-- C2: at most one downgrade retry per handshake.  A retry is produced
only when the result is access-denied, the one-shot automatic permission
is set and `local_max & negotiated != local_max`; when the flags would
not change, the denial surfaces as the failure instead; the retry state
has the permission cleared and a cleared permission never retries; and
every run of the attempt loop performs at most two attempts (one
retry). -/
theorem claim_C2_single_retry :
    (∀ (s : KeyState) (r : Auth2Response) (f : Nat) (s' : KeyState),
      continue_srv_auth2 s r f = .retry s' →
      r.result = .accessDenied ∧ s.dcerpc_schannel_auto = true ∧
      s.local_negotiate_flags &&& r.remoteFlags ≠ s.local_negotiate_flags ∧
      s'.dcerpc_schannel_auto = false) ∧
    (∀ (s : KeyState) (r : Auth2Response) (f : Nat),
      r.rpcStatus = .ok → r.result = .accessDenied →
      schannelDowngradeCheck s.required_negotiate_flags r.remoteFlags
        s.local_negotiate_flags = false →
      s.local_negotiate_flags &&& r.remoteFlags = s.local_negotiate_flags →
      continue_srv_auth2 s r f = .fail .accessDenied) ∧
    (∀ (s : KeyState) (r : Auth2Response) (f : Nat) (s' : KeyState),
      s.dcerpc_schannel_auto = false → continue_srv_auth2 s r f ≠ .retry s') ∧
    (∀ (rng : Nat → Nat) (k : Nat) (s : KeyState) (rs : List Auth2Response),
      (runAuthAttempts rng k s rs).sent.length ≤ 2) := by
  refine ⟨?_, ?_, ?_, runAuthAttempts_length_le_two⟩
  · intro s r f s' h
    obtain ⟨-, h2, h3, h4, h5⟩ := srv_auth2_retry_inversion s r f s' h
    exact ⟨h2, h3, h4, by rw [h5]⟩
  · intro s r f h1 h2 h3 h4
    have hv : continue_srv_auth2 s r f = srv_auth2_access_denied s r.remoteFlags f := by
      unfold continue_srv_auth2
      simp [h1, h2, h3]
    rw [hv]
    unfold srv_auth2_access_denied
    simp [h4]
  · intro s r f s' h
    exact srv_auth2_no_retry_of_auto_false s r f h s'

/-- Witness for C2: with equal flags on both sides an access-denied
result surfaces as the failure (no no-op retry), and a concrete run of
the loop stays within two attempts. -/
theorem claim_C2_single_retry_witness :
    continue_srv_auth2
      { required_negotiate_flags := 0x40000000, requested_negotiate_flags := 0x40004000,
        local_negotiate_flags := 0x40004000, dcerpc_schannel_auto := true, challenge := 0 }
      { rpcStatus := .ok, result := .accessDenied, remoteFlags := 0x40004000, credOk := true }
      0 = .fail .accessDenied ∧
    (runAuthAttempts (fun i => i) 0
      { required_negotiate_flags := 0x40000000, requested_negotiate_flags := 0x40004000,
        local_negotiate_flags := 0x40004000, dcerpc_schannel_auto := true, challenge := 0 }
      []).sent.length ≤ 2 :=
  ⟨claim_C2_single_retry.2.1 _ _ 0 rfl rfl (by decide) (by decide),
   claim_C2_single_retry.2.2.2 (fun i => i) 0 _ []⟩

/-- C9: fresh challenge on retry.  In every run of the attempt loop the
client challenge sent in attempt `i` is the RNG draw of index `i`
(attempt 1 draws index 0 in `continue_bind_auth_none`, the retry draws
index 1 before resending), so whenever the two RNG outputs differ the
challenge sent in attempt 2 differs from the one sent in attempt 1. -/
theorem claim_C9_fresh_challenge :
    ∀ (rng : Nat → Nat) (inp : PolicyInput) (rs : List Auth2Response),
      (∀ i, i < (runSchannelKey rng inp rs).sent.length →
        (runSchannelKey rng inp rs).sent.getD i 0 = rng i) ∧
      (rng 0 ≠ rng 1 → 2 ≤ (runSchannelKey rng inp rs).sent.length →
        (runSchannelKey rng inp rs).sent.getD 0 0 ≠
          (runSchannelKey rng inp rs).sent.getD 1 0) := by
  intro rng inp rs
  have hall := runAuthAttempts_sent_getD rng rs 0 (initialKeyState rng inp) rfl
  have hix : ∀ i, i < (runSchannelKey rng inp rs).sent.length →
      (runSchannelKey rng inp rs).sent.getD i 0 = rng i := by
    intro i hi
    have := hall i (by simpa [runSchannelKey] using hi)
    simpa [runSchannelKey] using this
  refine ⟨hix, ?_⟩
  intro hne hlen
  rw [hix 0 (by omega), hix 1 (by omega)]
  exact hne

/-- C3: level-1 capability cross-check.  For every level-1 response
that is received, passes authenticator verification and carries an OK
result, if the peer's reported server capabilities differ bit-for-bit
from the locally negotiated flags the handshake fails with
`DowngradeDetected`.  (The saved chain carries the same negotiated
flags as the live one: the authenticator step does not touch them.) -/
theorem claim_C3_l1_capability_crosscheck :
    ∀ (s : AuthSchannelState) (r : CapResponse),
      r.rpcStatus = .ok → r.result = .ok →
      netlogon_creds_client_verify s.save_creds_state r.returnCred = true →
      s.save_creds_state.negotiate_flags ≠ r.capabilities →
      (continue_get_negotiated_capabilities s r).1 = .fail .downgradeDetected := by
  intro s r h1 h2 h3 h4
  unfold continue_get_negotiated_capabilities
  simp [h1, h2, h3, h4]

/-- Witness for C3: a concrete mismatching level-1 response fails with
`DowngradeDetected`. -/
theorem claim_C3_l1_capability_crosscheck_witness :
    (continue_get_negotiated_capabilities
      { creds_state := { negotiate_flags := 5, seed := 3, sequence := 0 },
        save_creds_state := { negotiate_flags := 5, seed := 4, sequence := 1 },
        requested_negotiate_flags := 5 }
      { rpcStatus := .ok, returnCred := 4, result := .ok, capabilities := 6 }).1 =
      .fail .downgradeDetected :=
  claim_C3_l1_capability_crosscheck _ _ rfl rfl (by decide) (by decide)

/-- Counterexample for C4: when the level-1 capability query's
application result is "not implemented" and AES was not negotiated, the
handler finishes the handshake directly (`doneOk`) without issuing the
neutral control probe — contradicting the claim that every
not-recognized / not-implemented outcome routes through the probe and
that success then requires the probe to return "not supported". -/
theorem claim_C4_counterexample :
    (continue_get_negotiated_capabilities
        { creds_state := { negotiate_flags := 0, seed := 0, sequence := 0 },
          save_creds_state := { negotiate_flags := 0, seed := 0, sequence := 0 },
          requested_negotiate_flags := 0 }
        { rpcStatus := .ok, returnCred := 0, result := .notImplemented,
          capabilities := 0 }).1 = .doneOk ∧
    (continue_get_negotiated_capabilities
        { creds_state := { negotiate_flags := 0, seed := 0, sequence := 0 },
          save_creds_state := { negotiate_flags := 0, seed := 0, sequence := 0 },
          requested_negotiate_flags := 0 }
        { rpcStatus := .ok, returnCred := 0, result := .notImplemented,
          capabilities := 0 }).1 ≠ .sendProbe := by
  decide

/-- C4 (amended): legacy-peer fallback.  When the level-1 query's RPC
status is "procedure number out of range" and the negotiated flags
include neither AES nor strong keys, the handler issues the neutral
control probe with the state unchanged; the probe continuation then
finishes `Done` iff the probe call succeeded and returned exactly
"not supported", any other probe outcome failing with
`DowngradeDetected`, and it never touches the stored state (so the
flags negotiated at the authenticate step are kept).  When instead the
query was received but its result is "not implemented" and AES was not
negotiated, the handshake completes `Done` directly without a probe. -/
theorem claim_C4_legacy_fallback :
    (∀ (s : AuthSchannelState) (r : CapResponse),
      r.rpcStatus = .rpcProcnumOutOfRange →
      s.creds_state.negotiate_flags &&& NETLOGON_NEG_SUPPORTS_AES = 0 →
      s.creds_state.negotiate_flags &&& NETLOGON_NEG_STRONG_KEYS = 0 →
      continue_get_negotiated_capabilities s r = (.sendProbe, s)) ∧
    (∀ (s : AuthSchannelState) (r : CapResponse),
      r.rpcStatus = .ok → r.result = .notImplemented →
      s.creds_state.negotiate_flags &&& NETLOGON_NEG_SUPPORTS_AES = 0 →
      continue_get_negotiated_capabilities s r = (.doneOk, s)) ∧
    (∀ (s : AuthSchannelState) (ps : NtStatus) (w : WError),
      ((continue_logon_control_done s ps w).1 = .doneOk ↔
        (ps = .ok ∧ w = .notSupported)) ∧
      ((continue_logon_control_done s ps w).1 ≠ .doneOk →
        continue_logon_control_done s ps w = (.fail .downgradeDetected, s)) ∧
      (continue_logon_control_done s ps w).2 = s) := by
  refine ⟨?_, ?_, ?_⟩
  · intro s r h1 h2 h3
    unfold continue_get_negotiated_capabilities
    simp [h1, h2, h3]
  · intro s r h1 h2 h3
    unfold continue_get_negotiated_capabilities
    simp [h1, h2, h3]
  · intro s ps w
    by_cases h1 : ps = .ok
    · by_cases h2 : w = .notSupported
      · refine ⟨?_, ?_, ?_⟩ <;>
          · unfold continue_logon_control_done
            simp [h1, h2]
      · refine ⟨?_, ?_, ?_⟩ <;>
          · unfold continue_logon_control_done
            simp [h1, h2]
    · refine ⟨?_, ?_, ?_⟩ <;>
        · unfold continue_logon_control_done
          simp [h1]

/-- Witness for C4 (amended) at a concrete legacy peer: the query is
not recognized, the probe is issued, and a "not supported" probe reply
finishes `Done`. -/
theorem claim_C4_legacy_fallback_witness :
    continue_get_negotiated_capabilities
      { creds_state := { negotiate_flags := 0x400001FF, seed := 0, sequence := 0 },
        save_creds_state := { negotiate_flags := 0x400001FF, seed := 1, sequence := 1 },
        requested_negotiate_flags := 0x400001FF }
      { rpcStatus := .rpcProcnumOutOfRange, returnCred := 0, result := .ok,
        capabilities := 0 } =
      (.sendProbe,
        { creds_state := { negotiate_flags := 0x400001FF, seed := 0, sequence := 0 },
          save_creds_state := { negotiate_flags := 0x400001FF, seed := 1, sequence := 1 },
          requested_negotiate_flags := 0x400001FF }) ∧
    (continue_logon_control_done
      { creds_state := { negotiate_flags := 0x400001FF, seed := 0, sequence := 0 },
        save_creds_state := { negotiate_flags := 0x400001FF, seed := 1, sequence := 1 },
        requested_negotiate_flags := 0x400001FF }
      .ok .notSupported).1 = .doneOk :=
  ⟨claim_C4_legacy_fallback.1 _ _ rfl (by decide) (by decide),
   (claim_C4_legacy_fallback.2.2 _ .ok .notSupported).1.mpr ⟨rfl, rfl⟩⟩

/-- C5: level-2 capability echo integrity.  The level-2 handler reaches
`doneOk` only when the echoed `requested_flags` equal the flags the
client actually sent at the authenticate step, and for every received,
verified, OK-result response whose echo differs the handshake fails
with `DowngradeDetected` (leaving the stored state untouched). -/
theorem claim_C5_l2_echo_integrity :
    ∀ (s : AuthSchannelState) (r : CapResponse),
      ((continue_get_client_capabilities s r).1 = .doneOk →
        s.requested_negotiate_flags = r.capabilities) ∧
      (r.rpcStatus = .ok →
        netlogon_creds_client_verify s.save_creds_state r.returnCred = true →
        r.result = .ok → s.requested_negotiate_flags ≠ r.capabilities →
        continue_get_client_capabilities s r = (.fail .downgradeDetected, s)) := by
  intro s r
  constructor
  · intro h
    exact (l2_doneOk_inversion s r h).2.2.2
  · intro h1 h2 h3 h4
    unfold continue_get_client_capabilities
    simp [h1, h2, h3, h4]

/-- Witness for C5: a concrete response echoing the wrong requested
flags fails with `DowngradeDetected`. -/
theorem claim_C5_l2_echo_integrity_witness :
    continue_get_client_capabilities
      { creds_state := { negotiate_flags := 7, seed := 3, sequence := 0 },
        save_creds_state := { negotiate_flags := 7, seed := 4, sequence := 1 },
        requested_negotiate_flags := 7 }
      { rpcStatus := .ok, returnCred := 4, result := .ok, capabilities := 8 } =
      (.fail .downgradeDetected,
        { creds_state := { negotiate_flags := 7, seed := 3, sequence := 0 },
          save_creds_state := { negotiate_flags := 7, seed := 4, sequence := 1 },
          requested_negotiate_flags := 7 }) :=
  (claim_C5_l2_echo_integrity _ _).2 rfl (by decide) rfl (by decide)

/-- C6: level-2 error-code quirk.  A BAD_STUB_DATA receive status is
treated exactly like ENUM_VALUE_OUT_OF_RANGE (the handler's outcome and
state are identical for otherwise-equal responses), both are routed to
the same neutral control-probe fallback used by level 1, and no other
receive status reaches that fallback. -/
theorem claim_C6_l2_error_quirk :
    ∀ (s : AuthSchannelState) (r : CapResponse),
      (continue_get_client_capabilities s { r with rpcStatus := .rpcBadStubData } =
        continue_get_client_capabilities s
          { r with rpcStatus := .rpcEnumValueOutOfRange }) ∧
      ((continue_get_client_capabilities s r).1 = .sendProbe ↔
        (r.rpcStatus = .rpcBadStubData ∨ r.rpcStatus = .rpcEnumValueOutOfRange)) ∧
      ((r.rpcStatus = .rpcBadStubData ∨ r.rpcStatus = .rpcEnumValueOutOfRange) →
        continue_get_client_capabilities s r = (.sendProbe, s)) := by
  intro s r
  refine ⟨rfl, l2_probe_iff s r, ?_⟩
  intro h
  rcases h with h | h <;>
    · unfold continue_get_client_capabilities
      simp [h]

/-- Witness for C6: a concrete BAD_STUB_DATA response goes to the
probe fallback. -/
theorem claim_C6_l2_error_quirk_witness :
    continue_get_client_capabilities
      { creds_state := { negotiate_flags := 7, seed := 3, sequence := 0 },
        save_creds_state := { negotiate_flags := 7, seed := 4, sequence := 1 },
        requested_negotiate_flags := 7 }
      { rpcStatus := .rpcBadStubData, returnCred := 0, result := .ok,
        capabilities := 7 } =
      (.sendProbe,
        { creds_state := { negotiate_flags := 7, seed := 3, sequence := 0 },
          save_creds_state := { negotiate_flags := 7, seed := 4, sequence := 1 },
          requested_negotiate_flags := 7 }) :=
  (claim_C6_l2_error_quirk _ _).2.2 (Or.inl rfl)

/-- C10: capability-query authenticator atomicity.  The query sender
computes the authenticator on a saved copy, leaving the live chain
untouched; for both capability handlers a failing RPC receive or a
failing authenticator verification leaves the stored chain unchanged;
and whenever the stored chain does change, verification succeeded and
the new value is exactly the saved advanced copy. -/
theorem claim_C10_authenticator_atomicity :
    ∀ (s : AuthSchannelState) (r : CapResponse),
      ((continue_bind_auth s).creds_state = s.creds_state ∧
       (continue_bind_auth s).save_creds_state =
         (netlogon_creds_client_authenticator s.creds_state).1) ∧
      (r.rpcStatus ≠ .ok →
        ((continue_get_negotiated_capabilities s r).2).creds_state = s.creds_state ∧
        ((continue_get_client_capabilities s r).2).creds_state = s.creds_state) ∧
      (netlogon_creds_client_verify s.save_creds_state r.returnCred = false →
        ((continue_get_negotiated_capabilities s r).2).creds_state = s.creds_state ∧
        ((continue_get_client_capabilities s r).2).creds_state = s.creds_state) ∧
      (((continue_get_negotiated_capabilities s r).2).creds_state ≠ s.creds_state →
        netlogon_creds_client_verify s.save_creds_state r.returnCred = true ∧
        ((continue_get_negotiated_capabilities s r).2).creds_state =
          s.save_creds_state) ∧
      (((continue_get_client_capabilities s r).2).creds_state ≠ s.creds_state →
        netlogon_creds_client_verify s.save_creds_state r.returnCred = true ∧
        ((continue_get_client_capabilities s r).2).creds_state =
          s.save_creds_state) := by
  intro s r
  refine ⟨⟨rfl, rfl⟩, ?_, ?_, ?_, ?_⟩
  · intro h
    constructor
    · rcases l1_state_cases s r with hc | ⟨hok, -, -⟩
      · exact hc
      · exact absurd hok h
    · rcases l2_state_cases s r with hc | ⟨hok, -, -⟩
      · exact hc
      · exact absurd hok h
  · intro h
    constructor
    · rcases l1_state_cases s r with hc | ⟨-, hvr, -⟩
      · exact hc
      · rw [h] at hvr
        cases hvr
    · rcases l2_state_cases s r with hc | ⟨-, hvr, -⟩
      · exact hc
      · rw [h] at hvr
        cases hvr
  · intro h
    rcases l1_state_cases s r with hc | ⟨-, hvr, hs⟩
    · exact absurd hc h
    · exact ⟨hvr, hs⟩
  · intro h
    rcases l2_state_cases s r with hc | ⟨-, hvr, hs⟩
    · exact absurd hc h
    · exact ⟨hvr, hs⟩

/-- Witness for C10: a transport-failed level-1 query leaves the
concrete stored chain untouched. -/
theorem claim_C10_authenticator_atomicity_witness :
    ((continue_get_negotiated_capabilities
      { creds_state := { negotiate_flags := 7, seed := 3, sequence := 0 },
        save_creds_state := { negotiate_flags := 7, seed := 4, sequence := 1 },
        requested_negotiate_flags := 7 }
      { rpcStatus := .other 5, returnCred := 0, result := .ok,
        capabilities := 7 }).2).creds_state =
      { negotiate_flags := 7, seed := 3, sequence := 0 } :=
  ((claim_C10_authenticator_atomicity _ _).2.1 (by decide)).1

/-- Witness for C9: a concrete two-attempt run with distinct RNG draws
sends distinct challenges. -/
theorem claim_C9_fresh_challenge_witness :
    2 ≤ (runSchannelKey (fun i => i)
        { flags128 := false, flagsAES := false, flagsAuto := true,
          lpRejectMd5Servers := false, lpRequireStrongKey := false,
          weakCryptoDisallowed := false, isRodc := false }
        [{ rpcStatus := .ok, result := .accessDenied, remoteFlags := 0x40000000,
           credOk := true },
         { rpcStatus := .ok, result := .ok, remoteFlags := 0x40000000,
           credOk := true }]).sent.length ∧
    (runSchannelKey (fun i => i)
        { flags128 := false, flagsAES := false, flagsAuto := true,
          lpRejectMd5Servers := false, lpRequireStrongKey := false,
          weakCryptoDisallowed := false, isRodc := false }
        [{ rpcStatus := .ok, result := .accessDenied, remoteFlags := 0x40000000,
           credOk := true },
         { rpcStatus := .ok, result := .ok, remoteFlags := 0x40000000,
           credOk := true }]).sent.getD 0 0 ≠
      (runSchannelKey (fun i => i)
        { flags128 := false, flagsAES := false, flagsAuto := true,
          lpRejectMd5Servers := false, lpRequireStrongKey := false,
          weakCryptoDisallowed := false, isRodc := false }
        [{ rpcStatus := .ok, result := .accessDenied, remoteFlags := 0x40000000,
           credOk := true },
         { rpcStatus := .ok, result := .ok, remoteFlags := 0x40000000,
           credOk := true }]).sent.getD 1 0 :=
  ⟨by decide,
   (claim_C9_fresh_challenge (fun i => i) _ _).2 (by decide) (by decide)⟩

/-- C7: required-flags computation of the negotiation policy.  For
every combination of channel class and policy switches: the final
required word is the authenticated-RPC baseline, extended with
password-set2 and AES when weak (MD5/RC4) servers are rejected, else
with RC4 and strong-keys when strong keys are required; hence when
strong keys are required and weak servers are not rejected the required
word contains the RC4 and strong-keys bits, when weak servers are
rejected it contains the AES and password-set2 bits with the
RC4/strong-keys bits removed (AES supersedes them), and rejecting weak
servers forces requiring strong keys. -/
theorem claim_C7_required_flags :
    ∀ (f128 fAES fAuto lpR lpS wc rodc : Bool),
      ((dcerpc_schannel_key_send
          ⟨f128, fAES, fAuto, lpR, lpS, wc, rodc⟩).required_negotiate_flags =
        (if rejectMd5Eff ⟨f128, fAES, fAuto, lpR, lpS, wc, rodc⟩ then
          NETLOGON_NEG_AUTHENTICATED_RPC ||| NETLOGON_NEG_PASSWORD_SET2 |||
            NETLOGON_NEG_SUPPORTS_AES
        else if requireStrongKeyEff ⟨f128, fAES, fAuto, lpR, lpS, wc, rodc⟩ then
          NETLOGON_NEG_AUTHENTICATED_RPC ||| NETLOGON_NEG_ARCFOUR |||
            NETLOGON_NEG_STRONG_KEYS
        else NETLOGON_NEG_AUTHENTICATED_RPC)) ∧
      (rejectMd5Eff ⟨f128, fAES, fAuto, lpR, lpS, wc, rodc⟩ = true →
        requireStrongKeyEff ⟨f128, fAES, fAuto, lpR, lpS, wc, rodc⟩ = true) ∧
      (requireStrongKeyEff ⟨f128, fAES, fAuto, lpR, lpS, wc, rodc⟩ = true →
       rejectMd5Eff ⟨f128, fAES, fAuto, lpR, lpS, wc, rodc⟩ = false →
        ((dcerpc_schannel_key_send
            ⟨f128, fAES, fAuto, lpR, lpS, wc, rodc⟩).required_negotiate_flags &&&
          NETLOGON_NEG_ARCFOUR ≠ 0 ∧
         (dcerpc_schannel_key_send
            ⟨f128, fAES, fAuto, lpR, lpS, wc, rodc⟩).required_negotiate_flags &&&
          NETLOGON_NEG_STRONG_KEYS ≠ 0)) ∧
      (rejectMd5Eff ⟨f128, fAES, fAuto, lpR, lpS, wc, rodc⟩ = true →
        ((dcerpc_schannel_key_send
            ⟨f128, fAES, fAuto, lpR, lpS, wc, rodc⟩).required_negotiate_flags &&&
          NETLOGON_NEG_SUPPORTS_AES ≠ 0 ∧
         (dcerpc_schannel_key_send
            ⟨f128, fAES, fAuto, lpR, lpS, wc, rodc⟩).required_negotiate_flags &&&
          NETLOGON_NEG_PASSWORD_SET2 ≠ 0 ∧
         (dcerpc_schannel_key_send
            ⟨f128, fAES, fAuto, lpR, lpS, wc, rodc⟩).required_negotiate_flags &&&
          NETLOGON_NEG_ARCFOUR = 0 ∧
         (dcerpc_schannel_key_send
            ⟨f128, fAES, fAuto, lpR, lpS, wc, rodc⟩).required_negotiate_flags &&&
          NETLOGON_NEG_STRONG_KEYS = 0)) := by
  decide

/-- Witness for C7: the explicit-128 class (strong keys, no weak-server
rejection) requires RC4 and strong keys; a weak-crypto-disallowed
policy requires AES and password-set2 with RC4/strong-keys dropped. -/
theorem claim_C7_required_flags_witness :
    ((dcerpc_schannel_key_send
        ⟨true, false, false, false, false, false, false⟩).required_negotiate_flags &&&
      NETLOGON_NEG_ARCFOUR ≠ 0 ∧
     (dcerpc_schannel_key_send
        ⟨true, false, false, false, false, false, false⟩).required_negotiate_flags &&&
      NETLOGON_NEG_STRONG_KEYS ≠ 0) ∧
    (dcerpc_schannel_key_send
        ⟨false, false, false, false, false, true, false⟩).required_negotiate_flags &&&
      NETLOGON_NEG_SUPPORTS_AES ≠ 0 :=
  ⟨(claim_C7_required_flags true false false false false false false).2.2.1
      (by decide) (by decide),
   ((claim_C7_required_flags false false false false false true false).2.2.2
      (by decide)).1⟩

/-- Counterexample for C8: with the legacy baseline (no explicit
schannel connection flags) and the weak-crypto-disallowed policy, AES
supersession strips the strong-keys bit from the final required word,
but `requested` keeps it (the source merges `required` into the local
flags before the supersession step), while the claimed union of final
required flags, candidate bits and channel-type bit does not contain
it: the claimed equation fails at this input. -/
theorem claim_C8_counterexample :
    (dcerpc_schannel_key_send
        ⟨false, false, false, false, false, true, false⟩).requested_negotiate_flags ≠
      requestedSpecFormula ⟨false, false, false, false, false, true, false⟩ := by
  decide

/-- C8 (amended): for every channel class and policy input, the
requested word equals the union of the required flags as computed
before AES supersession (still containing RC4/strong-keys whenever
strong keys are required), the candidate capability bits of the channel
class, and the RODC pass-through bit when the channel type is a
read-only replica; in particular requested is always a superset of the
final required word. -/
theorem claim_C8_requested_flags :
    ∀ (f128 fAES fAuto lpR lpS wc rodc : Bool),
      (dcerpc_schannel_key_send
          ⟨f128, fAES, fAuto, lpR, lpS, wc, rodc⟩).requested_negotiate_flags =
        requiredPreSupersession ⟨f128, fAES, fAuto, lpR, lpS, wc, rodc⟩ |||
          candidateFlags ⟨f128, fAES, fAuto, lpR, lpS, wc, rodc⟩ |||
          (if rodc then NETLOGON_NEG_RODC_PASSTHROUGH else 0) ∧
      (dcerpc_schannel_key_send
          ⟨f128, fAES, fAuto, lpR, lpS, wc, rodc⟩).required_negotiate_flags &&&
        (dcerpc_schannel_key_send
          ⟨f128, fAES, fAuto, lpR, lpS, wc, rodc⟩).requested_negotiate_flags =
        (dcerpc_schannel_key_send
          ⟨f128, fAES, fAuto, lpR, lpS, wc, rodc⟩).required_negotiate_flags := by
  decide

end Schannel
